import Mathlib

/-!
Shallow embedding of the weather/time plugin logic of the two samples

  * `python/samples/getting_started_with_agents/chat_completion/SK_MCP_Demo.py`
    (`WeatherPlugin.get_weather`, `TimePlugin.get_time`), and
  * `python/samples/getting_started_with_agents/chat_completion/step5_chat_completion_agent_plugin_with_kernel.py`
    (`WeatherPlugin.get_weather`),

together with theorems settling the claims about them.

Each plugin method wraps a single `requests.get(url, timeout=10)` call in a
`try`/`except Exception` block, extracts fields from the decoded JSON body
by dictionary indexing, and formats a result string.  The embedding models
the observable behaviour of one invocation: the HTTP response the provider
gives is a parameter (`ProviderBehavior`), and the run returns the result
string, the list of outbound requests issued, and the lines printed.
-/

/-- A parsed JSON value, as produced by `response.json()` in Python. -/
inductive Json where
  | null : Json
  | bool : Bool → Json
  | num : Int → Json
  | str : String → Json
  | arr : List Json → Json
  | obj : List (String × Json) → Json

mutual

/-- Python `repr` of a JSON value (what `str` falls back to for
non-string values). -/
def pyRepr : Json → String
  | .null => "None"
  | .bool true => "True"
  | .bool false => "False"
  | .num n => toString n
  | .str s => "'" ++ s ++ "'"
  | .arr xs => "[" ++ pyReprList xs ++ "]"
  | .obj fs => "\x7b" ++ pyReprFields fs ++ "\x7d"

/-- `repr` of the comma-separated elements of a Python list. -/
def pyReprList : List Json → String
  | [] => ""
  | [x] => pyRepr x
  | x :: xs => pyRepr x ++ ", " ++ pyReprList xs

/-- `repr` of the comma-separated entries of a Python dict. -/
def pyReprFields : List (String × Json) → String
  | [] => ""
  | [(k, v)] => "'" ++ k ++ "': " ++ pyRepr v
  | (k, v) :: fs => "'" ++ k ++ "': " ++ pyRepr v ++ ", " ++ pyReprFields fs

end

/-- Python `str` of a JSON value: the identity on strings, `repr`-like
otherwise.  This is what an f-string interpolation `{x}` renders. -/
def pyStr : Json → String
  | .str s => s
  | j => pyRepr j

/-- The Python exception raised inside the `try` block: from
`requests.get` (connection error / timeout), `raise_for_status`,
`response.json()`, or dictionary indexing. -/
inductive PyError where
  | transport : String → PyError
  | httpStatus : Nat → String → PyError
  | jsonDecode : PyError
  | keyError : String → PyError
  | typeError : String → PyError

/-- Model of `str(e)` for the exceptions above, used by the
`print(f"[... Error] {e}")` diagnostic line of `SK_MCP_Demo.py`. -/
def errMsg : PyError → String
  | .transport m => m
  | .httpStatus status url =>
      toString status ++ " Error for url: " ++ url
  | .jsonDecode => "Expecting value: line 1 column 1 (char 0)"
  | .keyError k => "'" ++ k ++ "'"
  | .typeError k => "indexing with key '" ++ k ++ "' on a non-dict value"

/-- How the external provider behaves on the single outbound request of
one invocation: the request raises (connection failure or timeout), or a
response arrives with an HTTP status and a body that is or is not valid
JSON. -/
inductive ProviderBehavior where
  | netFailure : String → ProviderBehavior
  | reply : Nat → Option Json → ProviderBehavior

/-- One outbound HTTP request: the URL passed to `requests.get` and its
`timeout` argument. -/
structure Request where
  url : String
  timeout : Nat
deriving DecidableEq

/-- `response.raise_for_status()` raises for 4xx and 5xx statuses. -/
def isHttpError (status : Nat) : Bool :=
  decide (400 ≤ status) && decide (status < 600)

/-- `requests.get(url, timeout=10)` followed by `raise_for_status()` and
`response.json()`: yields the decoded JSON body or the exception raised. -/
def httpGetJson (url : String) (p : ProviderBehavior) : Except PyError Json :=
  match p with
  | .netFailure m => .error (.transport m)
  | .reply status body =>
      if isHttpError status then .error (.httpStatus status url)
      else
        match body with
        | none => .error .jsonDecode
        | some j => .ok j

/-- Python dictionary indexing `j[k]`: raises `KeyError` when the key is
absent, `TypeError` when `j` is not a dict. -/
def Json.getKey (j : Json) (k : String) : Except PyError Json :=
  match j with
  | .obj fields =>
      match fields.lookup k with
      | some v => .ok v
      | none => .error (.keyError k)
  | _ => .error (.typeError k)

/-- The five field extractions of `get_weather`:
`data["current"]["condition"]["text"]`, `data["current"]["temp_f"]`,
`data["current"]["feelslike_f"]`, `data["current"]["humidity"]`,
`data["current"]["wind_mph"]`. -/
def weatherFields (data : Json) :
    Except PyError (Json × Json × Json × Json × Json) := do
  let condition ← (← (← data.getKey "current").getKey "condition").getKey "text"
  let temp_f ← (← data.getKey "current").getKey "temp_f"
  let feels_like ← (← data.getKey "current").getKey "feelslike_f"
  let humidity ← (← data.getKey "current").getKey "humidity"
  let wind_mph ← (← data.getKey "current").getKey "wind_mph"
  pure (condition, temp_f, feels_like, humidity, wind_mph)

/-- The two field extractions of `get_time`:
`data["location"]["localtime"]` and `data["location"]["tz_id"]`. -/
def timeFields (data : Json) : Except PyError (Json × Json) := do
  let localtime ← (← data.getKey "location").getKey "localtime"
  let tz_id ← (← data.getKey "location").getKey "tz_id"
  pure (localtime, tz_id)

/-- The whole `try` body up to the field extractions: fetch and decode the
body for `url`, then run the given extraction on it. -/
def outcomeOf {α : Type} (extract : Json → Except PyError α)
    (url : String) (p : ProviderBehavior) : Except PyError α := do
  let data ← httpGetJson url p
  extract data

/-- The observable effects of one plugin-method invocation: the returned
string, the outbound requests issued, and the lines printed. -/
structure RunOut where
  result : String
  requests : List Request
  printed : List String

/-- The URL both plugins build:
`f"http://api.weatherapi.com/v1/current.json?key={api_key}&q={city}"`. -/
def currentJsonUrl (api_key city : String) : String :=
  "http://api.weatherapi.com/v1/current.json?key=" ++ api_key ++ "&q=" ++ city

/-- The weather sentence both samples format on success (the two adjacent
f-string literals of the source, concatenated). -/
def weatherSentence (city : String) (condition temp_f feels_like humidity wind_mph : Json) :
    String :=
  "The weather in " ++ city ++ " is " ++ pyStr condition ++
    " with a temperature of " ++ pyStr temp_f ++ "°F " ++
    "(feels like " ++ pyStr feels_like ++ "°F). Humidity is " ++
    pyStr humidity ++ "% with winds at " ++ pyStr wind_mph ++ " mph."

/-- The time sentence `SK_MCP_Demo.py`'s `get_time` formats on success. -/
def timeSentence (city : String) (localtime tz_id : Json) : String :=
  "The local time in " ++ city ++ " is " ++ pyStr localtime ++
    " (" ++ pyStr tz_id ++ ")."

namespace SKMCPDemo

/-- `WeatherPlugin` of `SK_MCP_Demo.py`: stores the provider credential. -/
structure WeatherPlugin where
  api_key : String

/-- `WeatherPlugin.get_weather` of `SK_MCP_Demo.py`, with its observable
effects made explicit.  The provider's behaviour on the one outbound
request is the parameter `p`. -/
def WeatherPlugin.get_weather_run (self : WeatherPlugin) (city : String)
    (p : ProviderBehavior) : RunOut :=
  let url := currentJsonUrl self.api_key city
  match outcomeOf weatherFields url p with
  | .ok (condition, temp_f, feels_like, humidity, wind_mph) =>
      { result := "[Tool Used: WeatherPlugin]\n" ++
          weatherSentence city condition temp_f feels_like humidity wind_mph
        requests := [⟨url, 10⟩]
        printed := [] }
  | .error e =>
      { result := "[Tool Used: WeatherPlugin]\n" ++
          "Sorry, I couldn't fetch the weather for " ++ city ++ "."
        requests := [⟨url, 10⟩]
        printed := ["[WeatherPlugin Error] " ++ errMsg e] }

/-- The string `get_weather` returns. -/
def WeatherPlugin.get_weather (self : WeatherPlugin) (city : String)
    (p : ProviderBehavior) : String :=
  (self.get_weather_run city p).result

/-- `TimePlugin` of `SK_MCP_Demo.py`: stores the provider credential. -/
structure TimePlugin where
  api_key : String

/-- `TimePlugin.get_time` of `SK_MCP_Demo.py`, with its observable effects
made explicit. -/
def TimePlugin.get_time_run (self : TimePlugin) (city : String)
    (p : ProviderBehavior) : RunOut :=
  let url := currentJsonUrl self.api_key city
  match outcomeOf timeFields url p with
  | .ok (localtime, tz_id) =>
      { result := "[Tool Used: TimePlugin]\n" ++ timeSentence city localtime tz_id
        requests := [⟨url, 10⟩]
        printed := [] }
  | .error e =>
      { result := "[Tool Used: TimePlugin]\n" ++
          "Sorry, I couldn't fetch the time for " ++ city ++ "."
        requests := [⟨url, 10⟩]
        printed := ["[TimePlugin Error] " ++ errMsg e] }

/-- The string `get_time` returns. -/
def TimePlugin.get_time (self : TimePlugin) (city : String)
    (p : ProviderBehavior) : String :=
  (self.get_time_run city p).result

end SKMCPDemo

namespace Step5

/-- `WeatherPlugin` of `step5_chat_completion_agent_plugin_with_kernel.py`:
stores the provider credential. -/
structure WeatherPlugin where
  api_key : String

/-- `WeatherPlugin.get_weather` of
`step5_chat_completion_agent_plugin_with_kernel.py`, with its observable
effects made explicit.  Unlike the `SK_MCP_Demo.py` variant it returns the
bare sentence (no `[Tool Used: ...]` line), its failure message ends in
"Please try again later.", and its `except` branch prints nothing. -/
def WeatherPlugin.get_weather_run (self : WeatherPlugin) (city : String)
    (p : ProviderBehavior) : RunOut :=
  let url := currentJsonUrl self.api_key city
  match outcomeOf weatherFields url p with
  | .ok (condition, temp_f, feels_like, humidity, wind_mph) =>
      { result := weatherSentence city condition temp_f feels_like humidity wind_mph
        requests := [⟨url, 10⟩]
        printed := [] }
  | .error _ =>
      { result := "Sorry, I couldn't fetch the weather for " ++ city ++
          ". Please try again later."
        requests := [⟨url, 10⟩]
        printed := [] }

/-- The string `get_weather` returns. -/
def WeatherPlugin.get_weather (self : WeatherPlugin) (city : String)
    (p : ProviderBehavior) : String :=
  (self.get_weather_run city p).result

end Step5

/-- `needle` occurs as a contiguous substring of `hay`. -/
def strOccurs (needle hay : String) : Prop :=
  needle.data <:+: hay.data

instance (needle hay : String) : Decidable (strOccurs needle hay) :=
  inferInstanceAs (Decidable (needle.data <:+: hay.data))

/-- The stub weather body of the concrete scenario of the spec. -/
def stubWeatherBody : Json :=
  .obj [("current", .obj
    [("condition", .obj [("text", .str "Sunny")]),
     ("temp_f", .num 70),
     ("feelslike_f", .num 68),
     ("humidity", .num 50),
     ("wind_mph", .num 5)])]

/-- A stub body carrying the two fields `get_time` extracts. -/
def stubTimeBody : Json :=
  .obj [("location", .obj
    [("localtime", .str "2025-04-27 10:30"),
     ("tz_id", .str "Europe/Lisbon")])]

theorem strOccurs_of_eq_append (b pre post hay : String)
    (h : hay = pre ++ (b ++ post)) : strOccurs b hay := by
  subst h
  exact ⟨pre.data, post.data, by simp [String.data_append]⟩

theorem strOccurs_of_start (b post hay : String) (h : hay = b ++ post) :
    strOccurs b hay := by
  subst h
  exact ⟨[], post.data, by simp [String.data_append]⟩

theorem strOccurs_append_left (s b hay : String) (h : strOccurs b hay) :
    strOccurs b (s ++ hay) := by
  obtain ⟨u, v, huv⟩ := h
  refine ⟨s.data ++ u, v, ?_⟩
  rw [String.data_append, ← huv]
  simp [List.append_assoc]

theorem weatherTag_split :
    ("[Tool Used: WeatherPlugin]\n" : String) =
      "[Tool Used: WeatherPlugin]" ++ "\n" := by
  decide

theorem timeTag_split :
    ("[Tool Used: TimePlugin]\n" : String) = "[Tool Used: TimePlugin]" ++ "\n" := by
  decide

/-- When `raise_for_status` does not raise and the body decodes, the
`try` body reduces to the field extraction on the decoded body. -/
theorem outcomeOf_reply_ok {α : Type} (extract : Json → Except PyError α)
    (url : String) (status : Nat) (j : Json) (hs : isHttpError status = false) :
    outcomeOf extract url (.reply status (some j)) = extract j := by
  simp [outcomeOf, httpGetJson, hs, Bind.bind, Except.bind]

/-- The outcomes of the same provider behaviour at two URLs agree: both
succeed with the same extracted fields, or both raise. -/
theorem outcomeOf_pair {α : Type} (extract : Json → Except PyError α)
    (url₁ url₂ : String) (p : ProviderBehavior) :
    (∃ v, outcomeOf extract url₁ p = .ok v ∧ outcomeOf extract url₂ p = .ok v) ∨
    ((∃ e, outcomeOf extract url₁ p = .error e) ∧
     (∃ e, outcomeOf extract url₂ p = .error e)) := by
  cases p with
  | netFailure m =>
      right
      exact ⟨⟨.transport m, rfl⟩, ⟨.transport m, rfl⟩⟩
  | reply status body =>
      by_cases hs : isHttpError status
      · right
        refine ⟨⟨.httpStatus status url₁, ?_⟩, ⟨.httpStatus status url₂, ?_⟩⟩ <;>
          simp [outcomeOf, httpGetJson, hs, Bind.bind, Except.bind]
      · cases body with
        | none =>
            right
            constructor <;>
              exact ⟨.jsonDecode, by
                simp [outcomeOf, httpGetJson, hs, Bind.bind, Except.bind]⟩
        | some j =>
            cases he : extract j with
            | ok v =>
                left
                exact ⟨v,
                  by simp [outcomeOf, httpGetJson, hs, Bind.bind, Except.bind, he],
                  by simp [outcomeOf, httpGetJson, hs, Bind.bind, Except.bind, he]⟩
            | error e =>
                right
                constructor <;>
                  exact ⟨e, by
                    simp [outcomeOf, httpGetJson, hs, Bind.bind, Except.bind, he]⟩

/-- Each rendered field value occurs in the formatted weather sentence. -/
theorem weatherSentence_contains (city : String) (c t fl hm w : Json) :
    strOccurs (pyStr c) (weatherSentence city c t fl hm w) ∧
    strOccurs (pyStr t) (weatherSentence city c t fl hm w) ∧
    strOccurs (pyStr fl) (weatherSentence city c t fl hm w) ∧
    strOccurs (pyStr hm) (weatherSentence city c t fl hm w) ∧
    strOccurs (pyStr w) (weatherSentence city c t fl hm w) := by
  refine ⟨?_, ?_, ?_, ?_, ?_⟩
  · exact strOccurs_of_eq_append _ ("The weather in " ++ city ++ " is ")
      (" with a temperature of " ++ pyStr t ++ "°F " ++ "(feels like " ++ pyStr fl ++
        "°F). Humidity is " ++ pyStr hm ++ "% with winds at " ++ pyStr w ++ " mph.") _
      (by simp [weatherSentence, String.append_assoc])
  · exact strOccurs_of_eq_append _ ("The weather in " ++ city ++ " is " ++ pyStr c ++
        " with a temperature of ")
      ("°F " ++ "(feels like " ++ pyStr fl ++ "°F). Humidity is " ++ pyStr hm ++
        "% with winds at " ++ pyStr w ++ " mph.") _
      (by simp [weatherSentence, String.append_assoc])
  · exact strOccurs_of_eq_append _ ("The weather in " ++ city ++ " is " ++ pyStr c ++
        " with a temperature of " ++ pyStr t ++ "°F " ++ "(feels like ")
      ("°F). Humidity is " ++ pyStr hm ++ "% with winds at " ++ pyStr w ++ " mph.") _
      (by simp [weatherSentence, String.append_assoc])
  · exact strOccurs_of_eq_append _ ("The weather in " ++ city ++ " is " ++ pyStr c ++
        " with a temperature of " ++ pyStr t ++ "°F " ++ "(feels like " ++ pyStr fl ++
        "°F). Humidity is ")
      ("% with winds at " ++ pyStr w ++ " mph.") _
      (by simp [weatherSentence, String.append_assoc])
  · exact strOccurs_of_eq_append _ ("The weather in " ++ city ++ " is " ++ pyStr c ++
        " with a temperature of " ++ pyStr t ++ "°F " ++ "(feels like " ++ pyStr fl ++
        "°F). Humidity is " ++ pyStr hm ++ "% with winds at ")
      (" mph.") _
      (by simp [weatherSentence, String.append_assoc])

/-- Each rendered field value occurs in the formatted time sentence. -/
theorem timeSentence_contains (city : String) (lt tz : Json) :
    strOccurs (pyStr lt) (timeSentence city lt tz) ∧
    strOccurs (pyStr tz) (timeSentence city lt tz) := by
  constructor
  · exact strOccurs_of_eq_append _ ("The local time in " ++ city ++ " is ")
      (" (" ++ pyStr tz ++ ").") _
      (by simp [timeSentence, String.append_assoc])
  · exact strOccurs_of_eq_append _ ("The local time in " ++ city ++ " is " ++
        pyStr lt ++ " (")
      (").") _
      (by simp [timeSentence, String.append_assoc])

namespace SKMCPDemo

theorem get_weather_run_ok (self : WeatherPlugin) (city : String)
    (p : ProviderBehavior) (c t fl hm w : Json)
    (ho : outcomeOf weatherFields (currentJsonUrl self.api_key city) p =
      .ok (c, t, fl, hm, w)) :
    self.get_weather_run city p =
      { result := "[Tool Used: WeatherPlugin]\n" ++
          weatherSentence city c t fl hm w
        requests := [⟨currentJsonUrl self.api_key city, 10⟩]
        printed := [] } := by
  simp only [WeatherPlugin.get_weather_run, ho]

theorem get_weather_run_err (self : WeatherPlugin) (city : String)
    (p : ProviderBehavior) (e : PyError)
    (ho : outcomeOf weatherFields (currentJsonUrl self.api_key city) p = .error e) :
    self.get_weather_run city p =
      { result := "[Tool Used: WeatherPlugin]\n" ++
          "Sorry, I couldn't fetch the weather for " ++ city ++ "."
        requests := [⟨currentJsonUrl self.api_key city, 10⟩]
        printed := ["[WeatherPlugin Error] " ++ errMsg e] } := by
  simp only [WeatherPlugin.get_weather_run, ho]

theorem get_time_run_ok (self : TimePlugin) (city : String)
    (p : ProviderBehavior) (lt tz : Json)
    (ho : outcomeOf timeFields (currentJsonUrl self.api_key city) p = .ok (lt, tz)) :
    self.get_time_run city p =
      { result := "[Tool Used: TimePlugin]\n" ++ timeSentence city lt tz
        requests := [⟨currentJsonUrl self.api_key city, 10⟩]
        printed := [] } := by
  simp only [TimePlugin.get_time_run, ho]

theorem get_time_run_err (self : TimePlugin) (city : String)
    (p : ProviderBehavior) (e : PyError)
    (ho : outcomeOf timeFields (currentJsonUrl self.api_key city) p = .error e) :
    self.get_time_run city p =
      { result := "[Tool Used: TimePlugin]\n" ++
          "Sorry, I couldn't fetch the time for " ++ city ++ "."
        requests := [⟨currentJsonUrl self.api_key city, 10⟩]
        printed := ["[TimePlugin Error] " ++ errMsg e] } := by
  simp only [TimePlugin.get_time_run, ho]

/-- Whatever the provider does, `get_weather` issues the single request
`GET currentJsonUrl` with `timeout=10`. -/
theorem get_weather_requests (self : WeatherPlugin) (city : String)
    (p : ProviderBehavior) :
    (self.get_weather_run city p).requests =
      [⟨currentJsonUrl self.api_key city, 10⟩] := by
  cases ho : outcomeOf weatherFields (currentJsonUrl self.api_key city) p with
  | ok v =>
      obtain ⟨c, t, fl, hm, w⟩ := v
      simp only [get_weather_run_ok _ _ _ _ _ _ _ _ ho]
  | error e =>
      simp only [get_weather_run_err _ _ _ _ ho]

/-- Whatever the provider does, `get_time` issues the single request
`GET currentJsonUrl` with `timeout=10`. -/
theorem get_time_requests (self : TimePlugin) (city : String)
    (p : ProviderBehavior) :
    (self.get_time_run city p).requests =
      [⟨currentJsonUrl self.api_key city, 10⟩] := by
  cases ho : outcomeOf timeFields (currentJsonUrl self.api_key city) p with
  | ok v =>
      obtain ⟨lt, tz⟩ := v
      simp only [get_time_run_ok _ _ _ _ _ ho]
  | error e =>
      simp only [get_time_run_err _ _ _ _ ho]

end SKMCPDemo

namespace Step5

theorem step5_weather_run_ok (self : WeatherPlugin) (city : String)
    (p : ProviderBehavior) (c t fl hm w : Json)
    (ho : outcomeOf weatherFields (currentJsonUrl self.api_key city) p =
      .ok (c, t, fl, hm, w)) :
    self.get_weather_run city p =
      { result := weatherSentence city c t fl hm w
        requests := [⟨currentJsonUrl self.api_key city, 10⟩]
        printed := [] } := by
  simp only [WeatherPlugin.get_weather_run, ho]

theorem step5_weather_run_err (self : WeatherPlugin) (city : String)
    (p : ProviderBehavior) (e : PyError)
    (ho : outcomeOf weatherFields (currentJsonUrl self.api_key city) p = .error e) :
    self.get_weather_run city p =
      { result := "Sorry, I couldn't fetch the weather for " ++ city ++
          ". Please try again later."
        requests := [⟨currentJsonUrl self.api_key city, 10⟩]
        printed := [] } := by
  simp only [WeatherPlugin.get_weather_run, ho]

/-- Whatever the provider does, step5's `get_weather` issues the single
request `GET currentJsonUrl` with `timeout=10`. -/
theorem step5_weather_requests (self : WeatherPlugin) (city : String)
    (p : ProviderBehavior) :
    (self.get_weather_run city p).requests =
      [⟨currentJsonUrl self.api_key city, 10⟩] := by
  cases ho : outcomeOf weatherFields (currentJsonUrl self.api_key city) p with
  | ok v =>
      obtain ⟨c, t, fl, hm, w⟩ := v
      simp only [step5_weather_run_ok _ _ _ _ _ _ _ _ ho]
  | error e =>
      simp only [step5_weather_run_err _ _ _ _ ho]

end Step5

/-- C1: for every api key, city string and provider behaviour (network
failure, timeout, non-2xx status, non-JSON body, missing or malformed
fields), each invocation of `get_weather` or `get_time` returns exactly
one string — the formatted success sentence or the fixed apology — and
never raises past its boundary: the embedded functions are total and
every fault lands in the `except` branch's string. -/
theorem spec_C1_single_result (ak city : String) (p : ProviderBehavior) :
    ((∃ c t fl hm w, (SKMCPDemo.WeatherPlugin.mk ak).get_weather city p =
        "[Tool Used: WeatherPlugin]\n" ++ weatherSentence city c t fl hm w) ∨
      (SKMCPDemo.WeatherPlugin.mk ak).get_weather city p =
        "[Tool Used: WeatherPlugin]\n" ++
          "Sorry, I couldn't fetch the weather for " ++ city ++ ".") ∧
    ((∃ lt tz, (SKMCPDemo.TimePlugin.mk ak).get_time city p =
        "[Tool Used: TimePlugin]\n" ++ timeSentence city lt tz) ∨
      (SKMCPDemo.TimePlugin.mk ak).get_time city p =
        "[Tool Used: TimePlugin]\n" ++
          "Sorry, I couldn't fetch the time for " ++ city ++ ".") ∧
    ((∃ c t fl hm w, (Step5.WeatherPlugin.mk ak).get_weather city p =
        weatherSentence city c t fl hm w) ∨
      (Step5.WeatherPlugin.mk ak).get_weather city p =
        "Sorry, I couldn't fetch the weather for " ++ city ++
          ". Please try again later.") := by
  refine ⟨?_, ?_, ?_⟩
  · cases ho : outcomeOf weatherFields (currentJsonUrl ak city) p with
    | ok v =>
        obtain ⟨c, t, fl, hm, w⟩ := v
        exact Or.inl ⟨c, t, fl, hm, w, by
          simp only [SKMCPDemo.WeatherPlugin.get_weather,
            SKMCPDemo.get_weather_run_ok _ _ _ _ _ _ _ _ ho]⟩
    | error e =>
        exact Or.inr (by
          simp only [SKMCPDemo.WeatherPlugin.get_weather,
            SKMCPDemo.get_weather_run_err _ _ _ _ ho])
  · cases ho : outcomeOf timeFields (currentJsonUrl ak city) p with
    | ok v =>
        obtain ⟨lt, tz⟩ := v
        exact Or.inl ⟨lt, tz, by
          simp only [SKMCPDemo.TimePlugin.get_time,
            SKMCPDemo.get_time_run_ok _ _ _ _ _ ho]⟩
    | error e =>
        exact Or.inr (by
          simp only [SKMCPDemo.TimePlugin.get_time,
            SKMCPDemo.get_time_run_err _ _ _ _ ho])
  · cases ho : outcomeOf weatherFields (currentJsonUrl ak city) p with
    | ok v =>
        obtain ⟨c, t, fl, hm, w⟩ := v
        exact Or.inl ⟨c, t, fl, hm, w, by
          simp only [Step5.WeatherPlugin.get_weather,
            Step5.step5_weather_run_ok _ _ _ _ _ _ _ _ ho]⟩
    | error e =>
        exact Or.inr (by
          simp only [Step5.WeatherPlugin.get_weather,
            Step5.step5_weather_run_err _ _ _ _ ho])

/-- C2 counterexample: the claim cites both samples, but
`step5_chat_completion_agent_plugin_with_kernel.py`'s
`WeatherPlugin.get_weather`, invoked with city "San Francisco" against
the stub response of the spec's concrete scenario, does not return the
claimed prefixed string: it returns the bare sentence with no
`[Tool Used: WeatherPlugin]` line. -/
theorem spec_C2_counterexample :
    Step5.WeatherPlugin.get_weather ⟨"k"⟩ "San Francisco"
        (.reply 200 (some stubWeatherBody)) ≠
      "[Tool Used: WeatherPlugin]\nThe weather in San Francisco is Sunny with a temperature of 70°F (feels like 68°F). Humidity is 50% with winds at 5 mph." := by
  decide

/-- C2 amended: against the stub provider of the spec's concrete scenario,
`SK_MCP_Demo.py`'s `get_weather` yields exactly the claimed prefixed
string, while step5's `get_weather` yields the same sentence without the
`[Tool Used: WeatherPlugin]` prefix line. -/
theorem spec_C2_amended (ak : String) :
    (SKMCPDemo.WeatherPlugin.mk ak).get_weather "San Francisco"
        (.reply 200 (some stubWeatherBody)) =
      "[Tool Used: WeatherPlugin]\nThe weather in San Francisco is Sunny with a temperature of 70°F (feels like 68°F). Humidity is 50% with winds at 5 mph." ∧
    (Step5.WeatherPlugin.mk ak).get_weather "San Francisco"
        (.reply 200 (some stubWeatherBody)) =
      "The weather in San Francisco is Sunny with a temperature of 70°F (feels like 68°F). Humidity is 50% with winds at 5 mph." :=
  ⟨rfl, rfl⟩

/-- C3 counterexample: against a stub provider answering HTTP 500,
step5's `WeatherPlugin.get_weather` (cited by the claim) does not return
the claimed string: its failure message has no `[Tool Used: ...]` line
and ends in "Please try again later.". -/
theorem spec_C3_counterexample :
    Step5.WeatherPlugin.get_weather ⟨"k"⟩ "San Francisco" (.reply 500 none) ≠
      "[Tool Used: WeatherPlugin]\nSorry, I couldn't fetch the weather for San Francisco." := by
  decide

/-- C3 amended: against a stub provider answering HTTP 500,
`SK_MCP_Demo.py`'s `get_weather` yields exactly the claimed prefixed
apology, while step5's `get_weather` yields
"Sorry, I couldn't fetch the weather for San Francisco. Please try again
later." with no prefix. -/
theorem spec_C3_amended (ak : String) :
    (SKMCPDemo.WeatherPlugin.mk ak).get_weather "San Francisco"
        (.reply 500 none) =
      "[Tool Used: WeatherPlugin]\nSorry, I couldn't fetch the weather for San Francisco." ∧
    (Step5.WeatherPlugin.mk ak).get_weather "San Francisco" (.reply 500 none) =
      "Sorry, I couldn't fetch the weather for San Francisco. Please try again later." :=
  ⟨rfl, rfl⟩

set_option maxRecDepth 4000 in
/-- C4 counterexample: the claim cites step5's `get_weather` too, but on a
provider response with all expected fields present, the string step5's
`get_weather` returns does not contain the tool-attribution token
`[Tool Used: WeatherPlugin]` at all. -/
theorem spec_C4_counterexample :
    ¬ strOccurs "[Tool Used: WeatherPlugin]"
        (Step5.WeatherPlugin.get_weather ⟨"k"⟩ "San Francisco"
          (.reply 200 (some stubWeatherBody))) := by
  decide

/-- C4 amended: for every city and every provider response in which all
expected fields are present, `SK_MCP_Demo.py`'s `get_weather` and
`get_time` return strings containing the tool-attribution token and the
rendered value of every extracted field; step5's `get_weather` returns
the bare formatted sentence — it contains every extracted field value but
carries no tool-attribution token. -/
theorem spec_C4_amended (ak city : String) (status : Nat) (j : Json)
    (hs : isHttpError status = false) :
    (∀ c t fl hm w, weatherFields j = .ok (c, t, fl, hm, w) →
      (strOccurs "[Tool Used: WeatherPlugin]"
          ((SKMCPDemo.WeatherPlugin.mk ak).get_weather city (.reply status (some j))) ∧
        strOccurs (pyStr c)
          ((SKMCPDemo.WeatherPlugin.mk ak).get_weather city (.reply status (some j))) ∧
        strOccurs (pyStr t)
          ((SKMCPDemo.WeatherPlugin.mk ak).get_weather city (.reply status (some j))) ∧
        strOccurs (pyStr fl)
          ((SKMCPDemo.WeatherPlugin.mk ak).get_weather city (.reply status (some j))) ∧
        strOccurs (pyStr hm)
          ((SKMCPDemo.WeatherPlugin.mk ak).get_weather city (.reply status (some j))) ∧
        strOccurs (pyStr w)
          ((SKMCPDemo.WeatherPlugin.mk ak).get_weather city (.reply status (some j)))) ∧
      ((Step5.WeatherPlugin.mk ak).get_weather city (.reply status (some j)) =
          weatherSentence city c t fl hm w ∧
        strOccurs (pyStr c)
          ((Step5.WeatherPlugin.mk ak).get_weather city (.reply status (some j))) ∧
        strOccurs (pyStr t)
          ((Step5.WeatherPlugin.mk ak).get_weather city (.reply status (some j))) ∧
        strOccurs (pyStr fl)
          ((Step5.WeatherPlugin.mk ak).get_weather city (.reply status (some j))) ∧
        strOccurs (pyStr hm)
          ((Step5.WeatherPlugin.mk ak).get_weather city (.reply status (some j))) ∧
        strOccurs (pyStr w)
          ((Step5.WeatherPlugin.mk ak).get_weather city (.reply status (some j))))) ∧
    (∀ lt tz, timeFields j = .ok (lt, tz) →
      strOccurs "[Tool Used: TimePlugin]"
          ((SKMCPDemo.TimePlugin.mk ak).get_time city (.reply status (some j))) ∧
        strOccurs (pyStr lt)
          ((SKMCPDemo.TimePlugin.mk ak).get_time city (.reply status (some j))) ∧
        strOccurs (pyStr tz)
          ((SKMCPDemo.TimePlugin.mk ak).get_time city (.reply status (some j)))) := by
  constructor
  · intro c t fl hm w hw
    have ho : outcomeOf weatherFields (currentJsonUrl ak city)
        (.reply status (some j)) = .ok (c, t, fl, hm, w) := by
      rw [outcomeOf_reply_ok _ _ _ _ hs, hw]
    have hres : (SKMCPDemo.WeatherPlugin.mk ak).get_weather city
        (.reply status (some j)) =
        "[Tool Used: WeatherPlugin]\n" ++ weatherSentence city c t fl hm w := by
      simp only [SKMCPDemo.WeatherPlugin.get_weather,
        SKMCPDemo.get_weather_run_ok _ _ _ _ _ _ _ _ ho]
    have h5 : (Step5.WeatherPlugin.mk ak).get_weather city
        (.reply status (some j)) = weatherSentence city c t fl hm w := by
      simp only [Step5.WeatherPlugin.get_weather,
        Step5.step5_weather_run_ok _ _ _ _ _ _ _ _ ho]
    obtain ⟨o₁, o₂, o₃, o₄, o₅⟩ := weatherSentence_contains city c t fl hm w
    rw [hres, h5]
    exact ⟨⟨strOccurs_of_start _ ("\n" ++ weatherSentence city c t fl hm w) _
        (by rw [weatherTag_split, String.append_assoc]),
      strOccurs_append_left _ _ _ o₁, strOccurs_append_left _ _ _ o₂,
      strOccurs_append_left _ _ _ o₃, strOccurs_append_left _ _ _ o₄,
      strOccurs_append_left _ _ _ o₅⟩,
      rfl, o₁, o₂, o₃, o₄, o₅⟩
  · intro lt tz ht
    have ho : outcomeOf timeFields (currentJsonUrl ak city)
        (.reply status (some j)) = .ok (lt, tz) := by
      rw [outcomeOf_reply_ok _ _ _ _ hs, ht]
    have hres : (SKMCPDemo.TimePlugin.mk ak).get_time city
        (.reply status (some j)) =
        "[Tool Used: TimePlugin]\n" ++ timeSentence city lt tz := by
      simp only [SKMCPDemo.TimePlugin.get_time,
        SKMCPDemo.get_time_run_ok _ _ _ _ _ ho]
    obtain ⟨q₁, q₂⟩ := timeSentence_contains city lt tz
    rw [hres]
    exact ⟨strOccurs_of_start _ ("\n" ++ timeSentence city lt tz) _
        (by rw [timeTag_split, String.append_assoc]),
      strOccurs_append_left _ _ _ q₁, strOccurs_append_left _ _ _ q₂⟩

/-- C4 witness: the amended claim instantiated at the stub bodies, with
both hypotheses discharged by computation. -/
theorem spec_C4_witness :
    ((strOccurs "[Tool Used: WeatherPlugin]"
        ((SKMCPDemo.WeatherPlugin.mk "k").get_weather "San Francisco"
          (.reply 200 (some stubWeatherBody))) ∧
      strOccurs (pyStr (.str "Sunny"))
        ((SKMCPDemo.WeatherPlugin.mk "k").get_weather "San Francisco"
          (.reply 200 (some stubWeatherBody))) ∧
      strOccurs (pyStr (.num 70))
        ((SKMCPDemo.WeatherPlugin.mk "k").get_weather "San Francisco"
          (.reply 200 (some stubWeatherBody))) ∧
      strOccurs (pyStr (.num 68))
        ((SKMCPDemo.WeatherPlugin.mk "k").get_weather "San Francisco"
          (.reply 200 (some stubWeatherBody))) ∧
      strOccurs (pyStr (.num 50))
        ((SKMCPDemo.WeatherPlugin.mk "k").get_weather "San Francisco"
          (.reply 200 (some stubWeatherBody))) ∧
      strOccurs (pyStr (.num 5))
        ((SKMCPDemo.WeatherPlugin.mk "k").get_weather "San Francisco"
          (.reply 200 (some stubWeatherBody)))) ∧
     ((Step5.WeatherPlugin.mk "k").get_weather "San Francisco"
          (.reply 200 (some stubWeatherBody)) =
        weatherSentence "San Francisco" (.str "Sunny") (.num 70) (.num 68)
          (.num 50) (.num 5) ∧
      strOccurs (pyStr (.str "Sunny"))
        ((Step5.WeatherPlugin.mk "k").get_weather "San Francisco"
          (.reply 200 (some stubWeatherBody))) ∧
      strOccurs (pyStr (.num 70))
        ((Step5.WeatherPlugin.mk "k").get_weather "San Francisco"
          (.reply 200 (some stubWeatherBody))) ∧
      strOccurs (pyStr (.num 68))
        ((Step5.WeatherPlugin.mk "k").get_weather "San Francisco"
          (.reply 200 (some stubWeatherBody))) ∧
      strOccurs (pyStr (.num 50))
        ((Step5.WeatherPlugin.mk "k").get_weather "San Francisco"
          (.reply 200 (some stubWeatherBody))) ∧
      strOccurs (pyStr (.num 5))
        ((Step5.WeatherPlugin.mk "k").get_weather "San Francisco"
          (.reply 200 (some stubWeatherBody))))) ∧
    (strOccurs "[Tool Used: TimePlugin]"
        ((SKMCPDemo.TimePlugin.mk "k").get_time "Lisbon"
          (.reply 200 (some stubTimeBody))) ∧
      strOccurs (pyStr (.str "2025-04-27 10:30"))
        ((SKMCPDemo.TimePlugin.mk "k").get_time "Lisbon"
          (.reply 200 (some stubTimeBody))) ∧
      strOccurs (pyStr (.str "Europe/Lisbon"))
        ((SKMCPDemo.TimePlugin.mk "k").get_time "Lisbon"
          (.reply 200 (some stubTimeBody)))) :=
  ⟨(spec_C4_amended "k" "San Francisco" 200 stubWeatherBody rfl).1
      (.str "Sunny") (.num 70) (.num 68) (.num 50) (.num 5) rfl,
   (spec_C4_amended "k" "Lisbon" 200 stubTimeBody rfl).2
      (.str "2025-04-27 10:30") (.str "Europe/Lisbon") rfl⟩

/-- C5: on any fault (network failure, timeout, non-2xx status, non-JSON
body, missing or malformed fields), each capability returns the fixed
apology determined by the requested city alone — so the text names the
city and the underlying exception's content never reaches the return
value — and the cause appears at most in the locally printed diagnostic
line (`SK_MCP_Demo.py` prints it; step5 records nothing). -/
theorem spec_C5_fault_behaviour (ak city : String) :
    (∀ p e, outcomeOf weatherFields (currentJsonUrl ak city) p = .error e →
      (SKMCPDemo.WeatherPlugin.mk ak).get_weather_run city p =
        { result := "[Tool Used: WeatherPlugin]\n" ++
            "Sorry, I couldn't fetch the weather for " ++ city ++ "."
          requests := [⟨currentJsonUrl ak city, 10⟩]
          printed := ["[WeatherPlugin Error] " ++ errMsg e] } ∧
      strOccurs city ((SKMCPDemo.WeatherPlugin.mk ak).get_weather city p)) ∧
    (∀ p e, outcomeOf timeFields (currentJsonUrl ak city) p = .error e →
      (SKMCPDemo.TimePlugin.mk ak).get_time_run city p =
        { result := "[Tool Used: TimePlugin]\n" ++
            "Sorry, I couldn't fetch the time for " ++ city ++ "."
          requests := [⟨currentJsonUrl ak city, 10⟩]
          printed := ["[TimePlugin Error] " ++ errMsg e] } ∧
      strOccurs city ((SKMCPDemo.TimePlugin.mk ak).get_time city p)) ∧
    (∀ p e, outcomeOf weatherFields (currentJsonUrl ak city) p = .error e →
      (Step5.WeatherPlugin.mk ak).get_weather_run city p =
        { result := "Sorry, I couldn't fetch the weather for " ++ city ++
            ". Please try again later."
          requests := [⟨currentJsonUrl ak city, 10⟩]
          printed := [] } ∧
      strOccurs city ((Step5.WeatherPlugin.mk ak).get_weather city p)) := by
  refine ⟨?_, ?_, ?_⟩
  · intro p e ho
    refine ⟨SKMCPDemo.get_weather_run_err _ _ _ _ ho, ?_⟩
    have hr : (SKMCPDemo.WeatherPlugin.mk ak).get_weather city p =
        "[Tool Used: WeatherPlugin]\n" ++
          "Sorry, I couldn't fetch the weather for " ++ city ++ "." := by
      simp only [SKMCPDemo.WeatherPlugin.get_weather,
        SKMCPDemo.get_weather_run_err _ _ _ _ ho]
    exact strOccurs_of_eq_append city
      ("[Tool Used: WeatherPlugin]\n" ++ "Sorry, I couldn't fetch the weather for ")
      "." _ (by rw [hr]; simp only [String.append_assoc])
  · intro p e ho
    refine ⟨SKMCPDemo.get_time_run_err _ _ _ _ ho, ?_⟩
    have hr : (SKMCPDemo.TimePlugin.mk ak).get_time city p =
        "[Tool Used: TimePlugin]\n" ++
          "Sorry, I couldn't fetch the time for " ++ city ++ "." := by
      simp only [SKMCPDemo.TimePlugin.get_time,
        SKMCPDemo.get_time_run_err _ _ _ _ ho]
    exact strOccurs_of_eq_append city
      ("[Tool Used: TimePlugin]\n" ++ "Sorry, I couldn't fetch the time for ")
      "." _ (by rw [hr]; simp only [String.append_assoc])
  · intro p e ho
    refine ⟨Step5.step5_weather_run_err _ _ _ _ ho, ?_⟩
    have hr : (Step5.WeatherPlugin.mk ak).get_weather city p =
        "Sorry, I couldn't fetch the weather for " ++ city ++
          ". Please try again later." := by
      simp only [Step5.WeatherPlugin.get_weather,
        Step5.step5_weather_run_err _ _ _ _ ho]
    exact strOccurs_of_eq_append city
      "Sorry, I couldn't fetch the weather for "
      ". Please try again later." _ (by rw [hr]; simp only [String.append_assoc])

/-- C5 witness: the theorem instantiated at a concrete network failure. -/
theorem spec_C5_witness :
    (SKMCPDemo.WeatherPlugin.mk "k").get_weather_run "Paris" (.netFailure "boom") =
      { result := "[Tool Used: WeatherPlugin]\n" ++
          "Sorry, I couldn't fetch the weather for " ++ "Paris" ++ "."
        requests := [⟨currentJsonUrl "k" "Paris", 10⟩]
        printed := ["[WeatherPlugin Error] " ++ errMsg (.transport "boom")] } ∧
    strOccurs "Paris"
      ((SKMCPDemo.WeatherPlugin.mk "k").get_weather "Paris" (.netFailure "boom")) :=
  (spec_C5_fault_behaviour "k" "Paris").1 (.netFailure "boom") (.transport "boom") rfl

/-- C6: for every api key and city, when the provider responds with a
non-error status and a JSON body whose `location.localtime` and
`location.tz_id` are present, `get_time` extracts them and renders the
single sentence
`[Tool Used: TimePlugin]\nThe local time in {city} is {localtime} ({tz_id}).` -/
theorem spec_C6_time_success (ak city : String) (status : Nat) (j lt tz : Json)
    (hs : isHttpError status = false) (ht : timeFields j = .ok (lt, tz)) :
    (SKMCPDemo.TimePlugin.mk ak).get_time city (.reply status (some j)) =
      "[Tool Used: TimePlugin]\n" ++ timeSentence city lt tz := by
  have ho : outcomeOf timeFields (currentJsonUrl ak city)
      (.reply status (some j)) = .ok (lt, tz) := by
    rw [outcomeOf_reply_ok _ _ _ _ hs, ht]
  simp only [SKMCPDemo.TimePlugin.get_time,
    SKMCPDemo.get_time_run_ok _ _ _ _ _ ho]

/-- C6 witness: the theorem instantiated at a concrete stub body, with
both hypotheses discharged by computation. -/
theorem spec_C6_witness :
    isHttpError 200 = false ∧
    timeFields stubTimeBody = .ok (.str "2025-04-27 10:30", .str "Europe/Lisbon") ∧
    (SKMCPDemo.TimePlugin.mk "k").get_time "Lisbon"
        (.reply 200 (some stubTimeBody)) =
      "[Tool Used: TimePlugin]\nThe local time in Lisbon is 2025-04-27 10:30 (Europe/Lisbon)." :=
  ⟨rfl, rfl,
    spec_C6_time_success "k" "Lisbon" 200 stubTimeBody _ _ rfl rfl⟩

/-- C7: every invocation of `get_weather` or `get_time` issues exactly one
outbound request, and the request list is the same whatever the provider
does — no retries on failure, no cached skip on success. -/
theorem spec_C7_single_request (ak city : String) (p q : ProviderBehavior) :
    (((SKMCPDemo.WeatherPlugin.mk ak).get_weather_run city p).requests.length = 1 ∧
      ((SKMCPDemo.WeatherPlugin.mk ak).get_weather_run city p).requests =
        ((SKMCPDemo.WeatherPlugin.mk ak).get_weather_run city q).requests) ∧
    (((SKMCPDemo.TimePlugin.mk ak).get_time_run city p).requests.length = 1 ∧
      ((SKMCPDemo.TimePlugin.mk ak).get_time_run city p).requests =
        ((SKMCPDemo.TimePlugin.mk ak).get_time_run city q).requests) ∧
    (((Step5.WeatherPlugin.mk ak).get_weather_run city p).requests.length = 1 ∧
      ((Step5.WeatherPlugin.mk ak).get_weather_run city p).requests =
        ((Step5.WeatherPlugin.mk ak).get_weather_run city q).requests) := by
  refine ⟨⟨?_, ?_⟩, ⟨?_, ?_⟩, ⟨?_, ?_⟩⟩ <;>
    simp only [SKMCPDemo.get_weather_requests, SKMCPDemo.get_time_requests,
      Step5.step5_weather_requests, List.length_singleton]

/-- C8: for every api key and city string (empty and whitespace-only ones
included — nothing is validated locally), each invocation issues its one
request against the provider's `current.json` endpoint with the stored
credential as the `key` query parameter and the given city as the `q`
query parameter, waiting with the fixed `timeout=10`. -/
theorem spec_C8_request_shape (ak city : String) (p : ProviderBehavior) :
    ((SKMCPDemo.WeatherPlugin.mk ak).get_weather_run city p).requests =
      [⟨"http://api.weatherapi.com/v1/current.json?key=" ++ ak ++ "&q=" ++ city,
        10⟩] ∧
    ((SKMCPDemo.TimePlugin.mk ak).get_time_run city p).requests =
      [⟨"http://api.weatherapi.com/v1/current.json?key=" ++ ak ++ "&q=" ++ city,
        10⟩] ∧
    ((Step5.WeatherPlugin.mk ak).get_weather_run city p).requests =
      [⟨"http://api.weatherapi.com/v1/current.json?key=" ++ ak ++ "&q=" ++ city,
        10⟩] :=
  ⟨SKMCPDemo.get_weather_requests ⟨ak⟩ city p,
   SKMCPDemo.get_time_requests ⟨ak⟩ city p,
   Step5.step5_weather_requests ⟨ak⟩ city p⟩

/-- C9: in `SK_MCP_Demo.py`, every string `get_weather` returns starts
with `[Tool Used: WeatherPlugin]\n` and every string `get_time` returns
starts with `[Tool Used: TimePlugin]\n`, on the failure path as well as
the success path. -/
theorem spec_C9_tool_tag (ak city : String) (p : ProviderBehavior) :
    (∃ rest, (SKMCPDemo.WeatherPlugin.mk ak).get_weather city p =
      "[Tool Used: WeatherPlugin]\n" ++ rest) ∧
    (∃ rest, (SKMCPDemo.TimePlugin.mk ak).get_time city p =
      "[Tool Used: TimePlugin]\n" ++ rest) := by
  constructor
  · cases ho : outcomeOf weatherFields (currentJsonUrl ak city) p with
    | ok v =>
        obtain ⟨c, t, fl, hm, w⟩ := v
        exact ⟨weatherSentence city c t fl hm w, by
          simp only [SKMCPDemo.WeatherPlugin.get_weather,
            SKMCPDemo.get_weather_run_ok _ _ _ _ _ _ _ _ ho]⟩
    | error e =>
        refine ⟨"Sorry, I couldn't fetch the weather for " ++ city ++ ".", ?_⟩
        simp only [SKMCPDemo.WeatherPlugin.get_weather,
          SKMCPDemo.get_weather_run_err _ _ _ _ ho, String.append_assoc]
  · cases ho : outcomeOf timeFields (currentJsonUrl ak city) p with
    | ok v =>
        obtain ⟨lt, tz⟩ := v
        exact ⟨timeSentence city lt tz, by
          simp only [SKMCPDemo.TimePlugin.get_time,
            SKMCPDemo.get_time_run_ok _ _ _ _ _ ho]⟩
    | error e =>
        refine ⟨"Sorry, I couldn't fetch the time for " ++ city ++ ".", ?_⟩
        simp only [SKMCPDemo.TimePlugin.get_time,
          SKMCPDemo.get_time_run_err _ _ _ _ ho, String.append_assoc]

/-- C10: two invocations differing only in the stored `api_key`, given the
same provider behaviour, return identical strings — the credential flows
only into the outbound request URL, never into the returned text. -/
theorem spec_C10_key_noninterference (k₁ k₂ city : String)
    (p : ProviderBehavior) :
    (SKMCPDemo.WeatherPlugin.mk k₁).get_weather city p =
      (SKMCPDemo.WeatherPlugin.mk k₂).get_weather city p ∧
    (SKMCPDemo.TimePlugin.mk k₁).get_time city p =
      (SKMCPDemo.TimePlugin.mk k₂).get_time city p ∧
    (Step5.WeatherPlugin.mk k₁).get_weather city p =
      (Step5.WeatherPlugin.mk k₂).get_weather city p := by
  refine ⟨?_, ?_, ?_⟩
  · rcases outcomeOf_pair weatherFields (currentJsonUrl k₁ city)
        (currentJsonUrl k₂ city) p with ⟨v, h₁, h₂⟩ | ⟨⟨e₁, h₁⟩, ⟨e₂, h₂⟩⟩
    · obtain ⟨c, t, fl, hm, w⟩ := v
      simp only [SKMCPDemo.WeatherPlugin.get_weather,
        SKMCPDemo.get_weather_run_ok _ _ _ _ _ _ _ _ h₁,
        SKMCPDemo.get_weather_run_ok _ _ _ _ _ _ _ _ h₂]
    · simp only [SKMCPDemo.WeatherPlugin.get_weather,
        SKMCPDemo.get_weather_run_err _ _ _ _ h₁,
        SKMCPDemo.get_weather_run_err _ _ _ _ h₂]
  · rcases outcomeOf_pair timeFields (currentJsonUrl k₁ city)
        (currentJsonUrl k₂ city) p with ⟨v, h₁, h₂⟩ | ⟨⟨e₁, h₁⟩, ⟨e₂, h₂⟩⟩
    · obtain ⟨lt, tz⟩ := v
      simp only [SKMCPDemo.TimePlugin.get_time,
        SKMCPDemo.get_time_run_ok _ _ _ _ _ h₁,
        SKMCPDemo.get_time_run_ok _ _ _ _ _ h₂]
    · simp only [SKMCPDemo.TimePlugin.get_time,
        SKMCPDemo.get_time_run_err _ _ _ _ h₁,
        SKMCPDemo.get_time_run_err _ _ _ _ h₂]
  · rcases outcomeOf_pair weatherFields (currentJsonUrl k₁ city)
        (currentJsonUrl k₂ city) p with ⟨v, h₁, h₂⟩ | ⟨⟨e₁, h₁⟩, ⟨e₂, h₂⟩⟩
    · obtain ⟨c, t, fl, hm, w⟩ := v
      simp only [Step5.WeatherPlugin.get_weather,
        Step5.step5_weather_run_ok _ _ _ _ _ _ _ _ h₁,
        Step5.step5_weather_run_ok _ _ _ _ _ _ _ _ h₂]
    · simp only [Step5.WeatherPlugin.get_weather,
        Step5.step5_weather_run_err _ _ _ _ h₁,
        Step5.step5_weather_run_err _ _ _ _ h₂]
